import Mathlib

/-!
# polyxia: the event-details endpoint (`api/events/details/index.go`)

A shallow embedding of `Handler`, the only function of the source file, together
with the parts of the Go standard library it drives (`url.Values.Get`,
`http.Header.Set`, `http.ResponseWriter`, `errors.Is`, `fmt.Fprintf`), followed by
the properties of the handler that the specification states.

The retrieval service `controller.GetEventDetailsJson` lives in another package;
the handler is parameterised over it.
-/

namespace Polyxia

/-! ## Go values used by the handler -/

/-- Go `error` values. `value ident` is an error without an `Unwrap` method,
compared by identity (a package-level `errors.New` value and the like);
`wrap msg inner` is an error whose `Unwrap` method returns `inner`
(what `fmt.Errorf("...: %w", inner)` builds). The nil error is `none` in
`Option GoError`. Errors with an `Is` method of their own or with an
`Unwrap() []error` method are outside this model. -/
inductive GoError where
  | value (ident : String) : GoError
  | wrap (msg : String) (inner : GoError) : GoError
  deriving DecidableEq

/-- Modelled from the spec: the sentinel `converter.ErrSlightSeaLevelChangeIsNotSupported`
of package `converter`, which is not among the sources. The spec calls it the specific,
named suppressed-condition error, a singleton value told apart from all other errors
by identity. -/
def ErrSlightSeaLevelChangeIsNotSupported : GoError :=
  GoError.value "converter.ErrSlightSeaLevelChangeIsNotSupported"

/-- The loop of `errors.Is`: compare, then follow `Unwrap` until it is exhausted. -/
def errorsIsLoop (target : GoError) : GoError → Bool
  | GoError.value ident => decide (GoError.value ident = target)
  | GoError.wrap msg inner =>
    if GoError.wrap msg inner = target then true else errorsIsLoop target inner

/-- Go `errors.Is(err, target)`: when either side is nil the result is `err == target`,
otherwise the chain of `err` is searched for `target`. -/
def errorsIs (err target : Option GoError) : Bool :=
  match err, target with
  | some e, some t => errorsIsLoop t e
  | none, none => true
  | _, _ => false

/-- The chain of an error: the error itself, then what `Unwrap` yields, repeatedly. -/
def GoError.chain : GoError → List GoError
  | GoError.value ident => [GoError.value ident]
  | GoError.wrap msg inner => GoError.wrap msg inner :: inner.chain

/-- An error reports the suppressed condition when the sentinel is the error itself
or is wrapped somewhere inside it. -/
def GoError.Suppressed (e : GoError) : Prop :=
  ErrSlightSeaLevelChangeIsNotSupported ∈ e.chain

instance (e : GoError) : Decidable e.Suppressed := by
  unfold GoError.Suppressed; infer_instance

/-! ## `url.Values` and the request -/

/-- Go `url.Values`, a map from a key to the list of its values, as the list of its
bindings. -/
structure Values where
  entries : List (String × List String)

/-- Go `Values.Get`: the first value bound to the key, the empty string when the
key is unbound or bound to no value. -/
def Values.Get (v : Values) (key : String) : String :=
  match v.entries.lookup key with
  | some (x :: _) => x
  | _ => ""

/-- The part of `*http.Request` that is visible to a handler of this kind: the HTTP
method and the parsed query `r.URL.Query()`. -/
structure Request where
  Method : String
  Query : Values

/-! ## `http.ResponseWriter` -/

/-- A method call received by the response writer. -/
inductive Call where
  | HeaderSet (key value : String) : Call
  | WriteHeader (code : Nat) : Call
  | Write (data : String) : Call
  deriving DecidableEq

/-- The state of an `http.ResponseWriter`: the header map `w.Header()`, whether the
header has been written and with which status, the header map as it was sent, the body
bytes written so far, and the method calls received, oldest first. -/
structure ResponseWriter where
  header : List (String × String)
  wroteHeader : Bool
  status : Nat
  sent : List (String × String)
  body : String
  log : List Call
  deriving DecidableEq

/-- The writer that the server hands to a handler: nothing set, nothing written. -/
def ResponseWriter.fresh : ResponseWriter :=
  { header := [], wroteHeader := false, status := 0, sent := [], body := "", log := [] }

/-- Go `w.Header().Set(key, value)`: the key is bound to the single value, replacing
what it was bound to. (Both keys the handler sets are in canonical form already.) -/
def ResponseWriter.HeaderSet (w : ResponseWriter) (key value : String) : ResponseWriter :=
  { w with
    header := w.header.filter (fun kv => kv.1 ≠ key) ++ [(key, value)],
    log := w.log ++ [Call.HeaderSet key value] }

/-- Go `w.WriteHeader(code)`: the first call fixes the status and sends the header map
as it is at that moment; a later call is superfluous and changes nothing. -/
def ResponseWriter.WriteHeader (w : ResponseWriter) (code : Nat) : ResponseWriter :=
  if w.wroteHeader then
    { w with log := w.log ++ [Call.WriteHeader code] }
  else
    { w with
      wroteHeader := true, status := code, sent := w.header,
      log := w.log ++ [Call.WriteHeader code] }

/-- Go `bodyAllowedForStatus`: no body with 1xx, 204 and 304. -/
def bodyAllowedForStatus (status : Nat) : Bool :=
  if 100 ≤ status ∧ status ≤ 199 then false
  else if status = 204 then false
  else if status = 304 then false
  else true

/-- Go `w.Write(data)`: when `WriteHeader` has not been called yet, `Write` calls
`WriteHeader(http.StatusOK)` before writing the data; the data is dropped when the
status allows no body. The log shows the `Write` call, then the `WriteHeader` call that
it makes. The writer does not know the method of the request: `body` is what the handler
has written, and a server leaves it out of its answer to a HEAD request. -/
def ResponseWriter.Write (w : ResponseWriter) (data : String) : ResponseWriter :=
  let w := { w with log := w.log ++ [Call.Write data] }
  let w := if w.wroteHeader then w else w.WriteHeader 200
  if bodyAllowedForStatus w.status then { w with body := w.body ++ data } else w

/-- The status, sent header map and body that the handler has produced for the client
(of which a server sends the status and the header map only in answer to HEAD). -/
def ResponseWriter.response (w : ResponseWriter) : Nat × List (String × String) × String :=
  (w.status, w.sent, w.body)

/-- Number of `WriteHeader` calls the writer received. -/
def ResponseWriter.writeHeaderCalls (w : ResponseWriter) : Nat :=
  (w.log.filter (fun c => match c with | Call.WriteHeader _ => true | _ => false)).length

/-- Number of `Write` calls the writer received. -/
def ResponseWriter.writeCalls (w : ResponseWriter) : Nat :=
  (w.log.filter (fun c => match c with | Call.Write _ => true | _ => false)).length

/-! ## `fmt.Fprintf` -/

/-- The formatting loop of package `fmt` for string operands, on the fragment of the
format language made of plain characters, `%%` and the verb `%s`, with as many operands
as verbs. `%s` prints its operand as it is. Formats outside this fragment give `none`. -/
def doPrintf : List Char → List String → Option (List Char)
  | [], [] => some []
  | [], _ :: _ => none
  | '%' :: '%' :: format, a => (doPrintf format a).map (fun out => '%' :: out)
  | '%' :: 's' :: format, arg :: a => (doPrintf format a).map (fun out => arg.data ++ out)
  | '%' :: _, _ => none
  | c :: format, a => (doPrintf format a).map (fun out => c :: out)

/-- Go `fmt.Fprintf(w, format, a...)`: format, then hand the result to `w.Write` in
one call, also when the result is empty. (A format outside the fragment of `doPrintf` is
not interpreted; the handler only uses the format "%s".) -/
def Fprintf (w : ResponseWriter) (format : String) (a : List String) : ResponseWriter :=
  match doPrintf format.data a with
  | some out => w.Write (String.mk out)
  | none => w

/-! ## The handler -/

/-- The function `controller.GetEventDetailsJson(id, debug)` as a function of its
arguments: it returns a `*string`, nil or pointing to the payload, and an `error`, nil
or not. -/
abbrev GetEventDetailsJson := String → Bool → Option String × Option GoError

/-- The retrieval service as the handler meets it: a call of
`controller.GetEventDetailsJson(id, debug)` returns the pair and takes the service from
one state to the next. What a state is, is the business of the service; the handler can
neither read nor build one. -/
abbrev Service (σ : Type) := String → Bool → σ → (Option String × Option GoError) × σ

/-- What one run of the handler leaves behind: the response writer, the state in which
the retrieval service is left, the pointers that were dereferenced, and whether the run
ended in a nil-pointer panic. -/
structure Run (σ : Type) where
  w : ResponseWriter
  service : σ
  derefs : List (Option String)
  panicked : Bool
  deriving DecidableEq

/-- The function `Handler(w http.ResponseWriter, r *http.Request)` of
`api/events/details/index.go`, statement by statement; `s` is the state in which the run
finds the retrieval service. -/
def Handler {σ : Type} (controller : Service σ) (w : ResponseWriter) (r : Request) (s : σ) :
    Run σ :=
  let debug := false
  let w := w.HeaderSet "Access-Control-Allow-Origin" "*"
  let queryParams := r.Query.Get "id"
  if queryParams = "" then
    let w := w.WriteHeader 400
    { w := w, service := s, derefs := [], panicked := false }
  else
    let debugFlag := r.Query.Get "debug"
    let debug := if debugFlag = "dummy" then true else debug
    let ((data, err), s) := controller queryParams debug s
    if err ≠ none ∨ data = none then
      if errorsIs err (some ErrSlightSeaLevelChangeIsNotSupported) then
        let w := w.WriteHeader 204
        { w := w, service := s, derefs := [], panicked := false }
      else
        let w := w.WriteHeader 400
        { w := w, service := s, derefs := [], panicked := false }
    else
      let w := w.HeaderSet "Content-Type" "application/json"
      match data with
      | none => { w := w, service := s, derefs := [data], panicked := true }
      | some payload =>
        let w := Fprintf w "%s" [payload]
        { w := w, service := s, derefs := [data], panicked := false }

/-- The service that answers as the function `f` does and whose state is the list of the
calls it has received, oldest first: each call it receives adds its arguments. -/
def recorded (f : GetEventDetailsJson) : Service (List (String × Bool)) :=
  fun id debug received => (f id debug, received ++ [(id, debug)])

/-- The calls that a recording service has received by the end of the run. -/
def Run.calls (x : Run (List (String × Bool))) : List (String × Bool) :=
  x.service

/-- How the server runs the handler for one request: on a response writer of its own,
on which nothing has been set or written. The retrieval service answers as `controller`
and records the calls it receives, none so far. -/
def serve (controller : GetEventDetailsJson) (r : Request) :
    Run (List (String × Bool)) :=
  Handler (recorded controller) ResponseWriter.fresh r []

/-! ## Responses and sample inputs used by the statements below -/

def corsOnly (code : Nat) : ResponseWriter :=
  { header := [("Access-Control-Allow-Origin", "*")],
    wroteHeader := true, status := code,
    sent := [("Access-Control-Allow-Origin", "*")],
    body := "",
    log := [Call.HeaderSet "Access-Control-Allow-Origin" "*", Call.WriteHeader code] }

def jsonBody (payload : String) : ResponseWriter :=
  { header := [("Access-Control-Allow-Origin", "*"), ("Content-Type", "application/json")],
    wroteHeader := true, status := 200,
    sent := [("Access-Control-Allow-Origin", "*"), ("Content-Type", "application/json")],
    body := payload,
    log := [Call.HeaderSet "Access-Control-Allow-Origin" "*",
            Call.HeaderSet "Content-Type" "application/json",
            Call.Write payload, Call.WriteHeader 200] }

def sampleController : GetEventDetailsJson := fun id debug =>
  if id = "E1" then (some "\x7b\"id\":\"E1\",\"mag\":3.2\x7d", none)
  else if id = "E2" then (none, some ErrSlightSeaLevelChangeIsNotSupported)
  else if id = "E3" then (none, some (GoError.value "generic"))
  else if id = "E4" then (some (if debug then "100%s dummy" else "real"), none)
  else if id = "E5" then
    (some "partial", some (GoError.wrap "convert" ErrSlightSeaLevelChangeIsNotSupported))
  else (none, none)

def countingService : Service Nat := fun id debug n =>
  ((some (id ++ (if debug then "+" else "-") ++ toString n), none), n + 1)

def request (method : String) (query : List (String × List String)) : Request :=
  { Method := method, Query := { entries := query } }

def reqE1 : Request := request "GET" [("id", ["E1"])]

def reqE3 : Request := request "GET" [("id", ["E3"])]

def reqE5Debug : Request := request "GET" [("id", ["E5"]), ("debug", ["dummy"])]

def reqE4Upper : Request := request "GET" [("id", ["E4"]), ("debug", ["Dummy"])]

def reqPost : Request := request "POST" [("id", ["E1"])]

/-! ## Lemmas on the library model and the paths of the handler -/

theorem errorsIsLoop_iff (e : GoError) :
    errorsIsLoop ErrSlightSeaLevelChangeIsNotSupported e = true ↔ e.Suppressed := by
  induction e with
  | value ident =>
    simp [errorsIsLoop, GoError.Suppressed, GoError.chain, eq_comm]
  | wrap msg inner ih =>
    have hne : GoError.wrap msg inner ≠ ErrSlightSeaLevelChangeIsNotSupported := by
      simp [ErrSlightSeaLevelChangeIsNotSupported]
    have hne2 : ErrSlightSeaLevelChangeIsNotSupported ≠ GoError.wrap msg inner := fun h => hne h.symm
    simp only [GoError.Suppressed] at ih
    simp [errorsIsLoop, GoError.Suppressed, GoError.chain, hne, hne2, ih]

theorem errorsIs_some_iff (e : GoError) :
    errorsIs (some e) (some ErrSlightSeaLevelChangeIsNotSupported) = true ↔ e.Suppressed := by
  simp [errorsIs, errorsIsLoop_iff]

theorem errorsIs_none :
    errorsIs none (some ErrSlightSeaLevelChangeIsNotSupported) = false := rfl

theorem Fprintf_verb_s (w : ResponseWriter) (s : String) : Fprintf w "%s" [s] = w.Write s := by
  have h : doPrintf "%s".data [s] = some s.data := by simp [doPrintf]
  simp [Fprintf, h]

theorem fresh_cors_writeHeader (code : Nat) :
    (ResponseWriter.fresh.HeaderSet "Access-Control-Allow-Origin" "*").WriteHeader code
      = corsOnly code := by
  simp [ResponseWriter.fresh, ResponseWriter.HeaderSet, ResponseWriter.WriteHeader, corsOnly]

theorem fresh_cors_json_write (payload : String) :
    ((ResponseWriter.fresh.HeaderSet "Access-Control-Allow-Origin" "*").HeaderSet
        "Content-Type" "application/json").Write payload = jsonBody payload := by
  simp [ResponseWriter.fresh, ResponseWriter.HeaderSet, ResponseWriter.WriteHeader,
    ResponseWriter.Write, jsonBody, bodyAllowedForStatus]

theorem Handler_invalid {σ : Type} (controller : Service σ) (r : Request) (s : σ)
    (h : r.Query.Get "id" = "") :
    Handler controller ResponseWriter.fresh r s
      = { w := corsOnly 400, service := s, derefs := [], panicked := false } := by
  simp [Handler, h, fresh_cors_writeHeader]

theorem Handler_suppressed {σ : Type} (controller : Service σ) (r : Request) (s s2 : σ)
    (data : Option String) (e : GoError)
    (hid : r.Query.Get "id" ≠ "")
    (hres : controller (r.Query.Get "id") (decide (r.Query.Get "debug" = "dummy")) s
      = ((data, some e), s2))
    (hs : e.Suppressed) :
    Handler controller ResponseWriter.fresh r s
      = { w := corsOnly 204, service := s2, derefs := [], panicked := false } := by
  have hI := (errorsIs_some_iff e).mpr hs
  simp [Handler, hid, hres, hI, fresh_cors_writeHeader]

theorem Handler_failure {σ : Type} (controller : Service σ) (r : Request) (s s2 : σ)
    (data : Option String) (e : GoError)
    (hid : r.Query.Get "id" ≠ "")
    (hres : controller (r.Query.Get "id") (decide (r.Query.Get "debug" = "dummy")) s
      = ((data, some e), s2))
    (hs : ¬ e.Suppressed) :
    Handler controller ResponseWriter.fresh r s
      = { w := corsOnly 400, service := s2, derefs := [], panicked := false } := by
  have hI : errorsIs (some e) (some ErrSlightSeaLevelChangeIsNotSupported) = false := by
    rw [Bool.eq_false_iff]; intro h; exact hs ((errorsIs_some_iff e).mp h)
  simp [Handler, hid, hres, hI, fresh_cors_writeHeader]

theorem Handler_nothing {σ : Type} (controller : Service σ) (r : Request) (s s2 : σ)
    (hid : r.Query.Get "id" ≠ "")
    (hres : controller (r.Query.Get "id") (decide (r.Query.Get "debug" = "dummy")) s
      = ((none, none), s2)) :
    Handler controller ResponseWriter.fresh r s
      = { w := corsOnly 400, service := s2, derefs := [], panicked := false } := by
  simp [Handler, hid, hres, errorsIs_none, fresh_cors_writeHeader]

theorem Handler_success {σ : Type} (controller : Service σ) (r : Request) (s s2 : σ)
    (payload : String)
    (hid : r.Query.Get "id" ≠ "")
    (hres : controller (r.Query.Get "id") (decide (r.Query.Get "debug" = "dummy")) s
      = ((some payload, none), s2)) :
    Handler controller ResponseWriter.fresh r s
      = { w := jsonBody payload, service := s2, derefs := [some payload],
          panicked := false } := by
  simp [Handler, hid, hres, Fprintf_verb_s, fresh_cors_json_write]

theorem Handler_cases {σ : Type} (controller : Service σ) (r : Request) (s : σ) :
    (r.Query.Get "id" = "" ∧
      Handler controller ResponseWriter.fresh r s
        = { w := corsOnly 400, service := s, derefs := [], panicked := false }) ∨
    (r.Query.Get "id" ≠ "" ∧
      ((∀ payload,
          (controller (r.Query.Get "id") (decide (r.Query.Get "debug" = "dummy")) s).1
            ≠ (some payload, none)) ∧
        (Handler controller ResponseWriter.fresh r s
          = { w := corsOnly 400,
              service :=
                (controller (r.Query.Get "id") (decide (r.Query.Get "debug" = "dummy")) s).2,
              derefs := [], panicked := false } ∨
         Handler controller ResponseWriter.fresh r s
          = { w := corsOnly 204,
              service :=
                (controller (r.Query.Get "id") (decide (r.Query.Get "debug" = "dummy")) s).2,
              derefs := [], panicked := false }) ∨
       ∃ payload,
        (controller (r.Query.Get "id") (decide (r.Query.Get "debug" = "dummy")) s).1
          = (some payload, none) ∧
        Handler controller ResponseWriter.fresh r s
          = { w := jsonBody payload,
              service :=
                (controller (r.Query.Get "id") (decide (r.Query.Get "debug" = "dummy")) s).2,
              derefs := [some payload], panicked := false })) := by
  by_cases hid : r.Query.Get "id" = ""
  · exact Or.inl ⟨hid, Handler_invalid controller r s hid⟩
  · refine Or.inr ⟨hid, ?_⟩
    rcases hres : controller (r.Query.Get "id") (decide (r.Query.Get "debug" = "dummy")) s
      with ⟨⟨data, err⟩, s2⟩
    cases err with
    | some e =>
      refine Or.inl ⟨by simp, ?_⟩
      by_cases hs : e.Suppressed
      · exact Or.inr (Handler_suppressed controller r s s2 data e hid hres hs)
      · exact Or.inl (Handler_failure controller r s s2 data e hid hres hs)
    | none =>
      cases data with
      | none =>
        exact Or.inl ⟨by simp, Or.inl (Handler_nothing controller r s s2 hid hres)⟩
      | some payload =>
        exact Or.inr ⟨payload, rfl, Handler_success controller r s s2 payload hid hres⟩

theorem serve_invalid (controller : GetEventDetailsJson) (r : Request)
    (h : r.Query.Get "id" = "") :
    serve controller r
      = { w := corsOnly 400, service := [], derefs := [], panicked := false } :=
  Handler_invalid (recorded controller) r [] h

theorem serve_suppressed (controller : GetEventDetailsJson) (r : Request)
    (data : Option String) (e : GoError)
    (hid : r.Query.Get "id" ≠ "")
    (hres : controller (r.Query.Get "id") (decide (r.Query.Get "debug" = "dummy"))
      = (data, some e))
    (hs : e.Suppressed) :
    serve controller r =
      { w := corsOnly 204,
        service := [(r.Query.Get "id", decide (r.Query.Get "debug" = "dummy"))],
        derefs := [], panicked := false } :=
  Handler_suppressed (recorded controller) r [] _ data e hid (by simp [recorded, hres]) hs

theorem serve_failure (controller : GetEventDetailsJson) (r : Request)
    (data : Option String) (e : GoError)
    (hid : r.Query.Get "id" ≠ "")
    (hres : controller (r.Query.Get "id") (decide (r.Query.Get "debug" = "dummy"))
      = (data, some e))
    (hs : ¬ e.Suppressed) :
    serve controller r =
      { w := corsOnly 400,
        service := [(r.Query.Get "id", decide (r.Query.Get "debug" = "dummy"))],
        derefs := [], panicked := false } :=
  Handler_failure (recorded controller) r [] _ data e hid (by simp [recorded, hres]) hs

theorem serve_nothing (controller : GetEventDetailsJson) (r : Request)
    (hid : r.Query.Get "id" ≠ "")
    (hres : controller (r.Query.Get "id") (decide (r.Query.Get "debug" = "dummy"))
      = (none, none)) :
    serve controller r =
      { w := corsOnly 400,
        service := [(r.Query.Get "id", decide (r.Query.Get "debug" = "dummy"))],
        derefs := [], panicked := false } :=
  Handler_nothing (recorded controller) r [] _ hid (by simp [recorded, hres])

theorem serve_success (controller : GetEventDetailsJson) (r : Request) (payload : String)
    (hid : r.Query.Get "id" ≠ "")
    (hres : controller (r.Query.Get "id") (decide (r.Query.Get "debug" = "dummy"))
      = (some payload, none)) :
    serve controller r =
      { w := jsonBody payload,
        service := [(r.Query.Get "id", decide (r.Query.Get "debug" = "dummy"))],
        derefs := [some payload], panicked := false } :=
  Handler_success (recorded controller) r [] _ payload hid (by simp [recorded, hres])

theorem serve_cases (controller : GetEventDetailsJson) (r : Request) :
    (r.Query.Get "id" = "" ∧
      serve controller r =
        { w := corsOnly 400, service := [], derefs := [], panicked := false }) ∨
    serve controller r =
      { w := corsOnly 400,
        service := [(r.Query.Get "id", decide (r.Query.Get "debug" = "dummy"))],
        derefs := [], panicked := false } ∨
    serve controller r =
      { w := corsOnly 204,
        service := [(r.Query.Get "id", decide (r.Query.Get "debug" = "dummy"))],
        derefs := [], panicked := false } ∨
    ∃ payload,
      controller (r.Query.Get "id") (decide (r.Query.Get "debug" = "dummy"))
        = (some payload, none) ∧
      serve controller r =
        { w := jsonBody payload,
          service := [(r.Query.Get "id", decide (r.Query.Get "debug" = "dummy"))],
          derefs := [some payload], panicked := false } := by
  by_cases hid : r.Query.Get "id" = ""
  · exact Or.inl ⟨hid, serve_invalid controller r hid⟩
  · rcases hres : controller (r.Query.Get "id") (decide (r.Query.Get "debug" = "dummy"))
      with ⟨data, err⟩
    cases err with
    | some e =>
      by_cases hs : e.Suppressed
      · exact Or.inr (Or.inr (Or.inl (serve_suppressed controller r data e hid hres hs)))
      · exact Or.inr (Or.inl (serve_failure controller r data e hid hres hs))
    | none =>
      cases data with
      | none => exact Or.inr (Or.inl (serve_nothing controller r hid hres))
      | some payload =>
        exact Or.inr (Or.inr (Or.inr ⟨payload, rfl, serve_success controller r payload hid hres⟩))

theorem Handler_w_congr {σ τ : Type} (c1 : Service σ) (c2 : Service τ) (r : Request)
    (s : σ) (t : τ)
    (h : (c1 (r.Query.Get "id") (decide (r.Query.Get "debug" = "dummy")) s).1
      = (c2 (r.Query.Get "id") (decide (r.Query.Get "debug" = "dummy")) t).1) :
    (Handler c1 ResponseWriter.fresh r s).w = (Handler c2 ResponseWriter.fresh r t).w := by
  by_cases hid : r.Query.Get "id" = ""
  · rw [Handler_invalid c1 r s hid, Handler_invalid c2 r t hid]
  · rcases h1 : c1 (r.Query.Get "id") (decide (r.Query.Get "debug" = "dummy")) s
      with ⟨⟨data, err⟩, s2⟩
    rcases h2 : c2 (r.Query.Get "id") (decide (r.Query.Get "debug" = "dummy")) t
      with ⟨⟨data2, err2⟩, t2⟩
    rw [h1, h2] at h
    simp only [Prod.mk.injEq] at h
    obtain ⟨hd, he⟩ := h
    subst hd he
    cases err with
    | some e =>
      by_cases hs : e.Suppressed
      · rw [Handler_suppressed c1 r s s2 data e hid h1 hs,
          Handler_suppressed c2 r t t2 data e hid h2 hs]
      · rw [Handler_failure c1 r s s2 data e hid h1 hs,
          Handler_failure c2 r t t2 data e hid h2 hs]
    | none =>
      cases data with
      | none => rw [Handler_nothing c1 r s s2 hid h1, Handler_nothing c2 r t t2 hid h2]
      | some payload =>
        rw [Handler_success c1 r s s2 payload hid h1, Handler_success c2 r t t2 payload hid h2]

theorem Handler_service_once {σ : Type} (controller : Service σ) (r : Request) (s : σ)
    (hid : r.Query.Get "id" ≠ "") :
    (Handler controller ResponseWriter.fresh r s).service
      = (controller (r.Query.Get "id") (decide (r.Query.Get "debug" = "dummy")) s).2 := by
  rcases Handler_cases controller r s with ⟨h0, -⟩ | ⟨-, ⟨-, h | h⟩ | ⟨payload, -, h⟩⟩
  · exact absurd h0 hid
  · rw [h]
  · rw [h]
  · rw [h]

theorem Get_eq_empty (v : Values) (key : String)
    (h : v.entries.lookup key = none ∨ v.entries.lookup key = some [] ∨
      ∃ rest, v.entries.lookup key = some ("" :: rest)) : v.Get key = "" := by
  rcases h with h | h | ⟨rest, h⟩ <;> simp [Values.Get, h]

/-! ## The properties of the specification -/

/-- C1: a request whose `id` query parameter is missing (unbound, or bound to no value) or
empty gets status 400 and an empty body, and the retrieval service is not called, whatever
the `debug` parameter and the service are. -/
theorem Handler_missing_id_400 (controller : GetEventDetailsJson) (r : Request)
    (h : r.Query.entries.lookup "id" = none ∨ r.Query.entries.lookup "id" = some [] ∨
      ∃ rest, r.Query.entries.lookup "id" = some ("" :: rest)) :
    (serve controller r).w.wroteHeader = true ∧
    (serve controller r).w.status = 400 ∧
    (serve controller r).w.body = "" ∧
    (serve controller r).calls = [] := by
  rw [serve_invalid controller r (Get_eq_empty r.Query "id" h)]
  simp [corsOnly, Run.calls]

theorem Handler_missing_id_400_witness :
    ((request "GET" [("debug", ["dummy"])]).Query.entries.lookup "id" = none) ∧
    (serve sampleController (request "GET" [("debug", ["dummy"])])).w.wroteHeader = true ∧
    (serve sampleController (request "GET" [("debug", ["dummy"])])).w.status = 400 ∧
    (serve sampleController (request "GET" [("debug", ["dummy"])])).w.body = "" ∧
    (serve sampleController (request "GET" [("debug", ["dummy"])])).calls = [] :=
  ⟨by decide,
   Handler_missing_id_400 sampleController (request "GET" [("debug", ["dummy"])])
     (Or.inl (by decide))⟩

/-- C2: for a request with a non-empty `id` for which the retrieval service returns a
payload and no error, the response has status 200, carries `Content-Type: application/json`
and its body is the payload string itself, for every payload string. -/
theorem Handler_success_200_passthrough (controller : GetEventDetailsJson) (r : Request)
    (payload : String)
    (hid : r.Query.Get "id" ≠ "")
    (hres : controller (r.Query.Get "id") (decide (r.Query.Get "debug" = "dummy"))
      = (some payload, none)) :
    (serve controller r).w.status = 200 ∧
    (serve controller r).w.sent.lookup "Content-Type" = some "application/json" ∧
    (serve controller r).w.body = payload ∧
    (serve controller r).w.body.toUTF8 = payload.toUTF8 := by
  rw [serve_success controller r payload hid hres]
  simp [jsonBody, List.lookup]

theorem Handler_success_200_passthrough_witness :
    (request "GET" [("id", ["E4"]), ("debug", ["dummy"])]).Query.Get "id" ≠ "" ∧
    sampleController ((request "GET" [("id", ["E4"]), ("debug", ["dummy"])]).Query.Get "id")
      (decide ((request "GET" [("id", ["E4"]), ("debug", ["dummy"])]).Query.Get "debug"
        = "dummy")) = (some "100%s dummy", none) ∧
    (serve sampleController (request "GET" [("id", ["E4"]), ("debug", ["dummy"])])).w.status
      = 200 ∧
    (serve sampleController (request "GET" [("id", ["E4"]), ("debug", ["dummy"])])).w.sent.lookup
      "Content-Type" = some "application/json" ∧
    (serve sampleController (request "GET" [("id", ["E4"]), ("debug", ["dummy"])])).w.body
      = "100%s dummy" ∧
    (serve sampleController (request "GET" [("id", ["E4"]), ("debug", ["dummy"])])).w.body.toUTF8
      = "100%s dummy".toUTF8 :=
  ⟨by decide, by decide,
   Handler_success_200_passthrough sampleController
     (request "GET" [("id", ["E4"]), ("debug", ["dummy"])]) "100%s dummy"
     (by decide) (by decide)⟩

/-- C3: for a request with a non-empty `id` for which the retrieval service reports the
suppressed-condition error, directly or wrapped, the response has status 204 and an empty
body, whatever the debug toggle is and whether or not a payload comes with the error. -/
theorem Handler_suppressed_204 (controller : GetEventDetailsJson) (r : Request)
    (data : Option String) (e : GoError)
    (hid : r.Query.Get "id" ≠ "")
    (hres : controller (r.Query.Get "id") (decide (r.Query.Get "debug" = "dummy"))
      = (data, some e))
    (hs : e.Suppressed) :
    (serve controller r).w.wroteHeader = true ∧
    (serve controller r).w.status = 204 ∧
    (serve controller r).w.body = "" := by
  rw [serve_suppressed controller r data e hid hres hs]
  simp [corsOnly]

theorem Handler_suppressed_204_witness :
    reqE5Debug.Query.Get "id" ≠ "" ∧
    sampleController (reqE5Debug.Query.Get "id")
      (decide (reqE5Debug.Query.Get "debug" = "dummy"))
      = (some "partial",
         some (GoError.wrap "convert" ErrSlightSeaLevelChangeIsNotSupported)) ∧
    (GoError.wrap "convert" ErrSlightSeaLevelChangeIsNotSupported).Suppressed ∧
    (serve sampleController reqE5Debug).w.wroteHeader = true ∧
    (serve sampleController reqE5Debug).w.status = 204 ∧
    (serve sampleController reqE5Debug).w.body = "" :=
  ⟨by decide, by decide, by decide,
   Handler_suppressed_204 sampleController reqE5Debug (some "partial")
     (GoError.wrap "convert" ErrSlightSeaLevelChangeIsNotSupported)
     (by decide) (by decide) (by decide)⟩

/-- C4: for a request with a non-empty `id` for which the retrieval service reports an
error that is not the suppressed-condition error (with or without a payload), or reports
no error and a nil payload, the response has status 400 and an empty body. -/
theorem Handler_failure_400 (controller : GetEventDetailsJson) (r : Request)
    (hid : r.Query.Get "id" ≠ "")
    (hres : (∃ data e, controller (r.Query.Get "id") (decide (r.Query.Get "debug" = "dummy"))
        = (data, some e) ∧ ¬ e.Suppressed) ∨
      controller (r.Query.Get "id") (decide (r.Query.Get "debug" = "dummy")) = (none, none)) :
    (serve controller r).w.wroteHeader = true ∧
    (serve controller r).w.status = 400 ∧
    (serve controller r).w.body = "" := by
  rcases hres with ⟨data, e, hres, hs⟩ | hres
  · rw [serve_failure controller r data e hid hres hs]
    simp [corsOnly]
  · rw [serve_nothing controller r hid hres]
    simp [corsOnly]

theorem Handler_failure_400_witness :
    reqE3.Query.Get "id" ≠ "" ∧
    (sampleController (reqE3.Query.Get "id") (decide (reqE3.Query.Get "debug" = "dummy"))
      = (none, some (GoError.value "generic")) ∧ ¬ (GoError.value "generic").Suppressed) ∧
    (serve sampleController reqE3).w.wroteHeader = true ∧
    (serve sampleController reqE3).w.status = 400 ∧
    (serve sampleController reqE3).w.body = "" :=
  ⟨by decide, by decide,
   Handler_failure_400 sampleController reqE3 (by decide)
     (Or.inl ⟨none, GoError.value "generic", by decide, by decide⟩)⟩

/-- C5: whatever the request and the retrieval service are, the response that the handler
writes carries `Access-Control-Allow-Origin: *`, and setting that header is the first call
the response writer receives, ahead of the call that fixes the status. -/
theorem Handler_cors_always_first (controller : GetEventDetailsJson) (r : Request) :
    (serve controller r).w.wroteHeader = true ∧
    (serve controller r).w.sent.lookup "Access-Control-Allow-Origin" = some "*" ∧
    (∃ rest, (serve controller r).w.log
      = Call.HeaderSet "Access-Control-Allow-Origin" "*" :: rest) ∧
    ((serve controller r).w.status = 400 ∨ (serve controller r).w.status = 204 ∨
      (serve controller r).w.status = 200) := by
  rcases serve_cases controller r with ⟨-, h⟩ | h | h | ⟨payload, -, h⟩ <;>
    rw [h] <;> simp [corsOnly, jsonBody, List.lookup]

/-- C6: for a request with a non-empty `id` the handler calls the retrieval service
exactly once, with the value of the `id` parameter and with debug true exactly when the
value of the `debug` parameter is the string "dummy". Whatever the service and its state
are, the run leaves the service in the state in which that single call leaves it; the
response is made from the pair which that call returned and from nothing else of the
service, and a payload returned without error is the body; a service that records its
calls has received this call and no other. -/
theorem Handler_calls_service_once {σ : Type} (controller : Service σ) (r : Request) (s : σ)
    (hid : r.Query.Get "id" ≠ "") :
    (Handler controller ResponseWriter.fresh r s).service
      = (controller (r.Query.Get "id") (decide (r.Query.Get "debug" = "dummy")) s).2 ∧
    (∀ (τ : Type) (other : Service τ) (t : τ),
      (other (r.Query.Get "id") (decide (r.Query.Get "debug" = "dummy")) t).1
        = (controller (r.Query.Get "id") (decide (r.Query.Get "debug" = "dummy")) s).1 →
      (Handler other ResponseWriter.fresh r t).w
        = (Handler controller ResponseWriter.fresh r s).w) ∧
    (∀ payload,
      (controller (r.Query.Get "id") (decide (r.Query.Get "debug" = "dummy")) s).1
        = (some payload, none) →
      (Handler controller ResponseWriter.fresh r s).w.status = 200 ∧
      (Handler controller ResponseWriter.fresh r s).w.body = payload) ∧
    (∀ f : GetEventDetailsJson,
      (serve f r).calls = [(r.Query.Get "id", decide (r.Query.Get "debug" = "dummy"))] ∧
      (∀ id debug, (id, debug) ∈ (serve f r).calls →
        id = r.Query.Get "id" ∧ (debug = true ↔ r.Query.Get "debug" = "dummy"))) := by
  refine ⟨Handler_service_once controller r s hid, ?_, ?_, ?_⟩
  · intro τ other t h
    exact Handler_w_congr other controller r t s h
  · intro payload hres
    rcases hc : controller (r.Query.Get "id") (decide (r.Query.Get "debug" = "dummy")) s
      with ⟨res, s2⟩
    rw [hc] at hres
    simp only at hres
    subst hres
    rw [Handler_success controller r s s2 payload hid hc]
    simp [jsonBody]
  · intro f
    have h : (serve f r).calls
        = [(r.Query.Get "id", decide (r.Query.Get "debug" = "dummy"))] := by
      have h1 := Handler_service_once (recorded f) r [] hid
      simpa [serve, Run.calls, recorded] using h1
    refine ⟨h, ?_⟩
    intro id debug hmem
    rw [h] at hmem
    simp at hmem
    obtain ⟨h1, h2⟩ := hmem
    subst h1 h2
    simp

theorem Handler_calls_service_once_witness :
    reqE4Upper.Query.Get "id" ≠ "" ∧
    (Handler (recorded sampleController) ResponseWriter.fresh reqE4Upper []).service
      = [("E4", false)] ∧
    (Handler countingService ResponseWriter.fresh reqE4Upper 7).service = 8 ∧
    (serve sampleController reqE4Upper).calls = [("E4", false)] :=
  ⟨by decide,
   (Handler_calls_service_once (recorded sampleController) reqE4Upper [] (by decide)).1,
   (Handler_calls_service_once countingService reqE4Upper 7 (by decide)).1,
   ((Handler_calls_service_once (recorded sampleController) reqE4Upper [] (by decide)).2.2.2
      sampleController).1⟩

/-- C7: the handler sets `Content-Type: application/json` exactly when the response is the
200 response; on a 400 or 204 response the CORS header is the only header it has set, and
the header map that was sent is the one the handler has set. -/
theorem Handler_content_type_iff_200 (controller : GetEventDetailsJson) (r : Request) :
    ((serve controller r).w.header.lookup "Content-Type" = some "application/json" ↔
      (serve controller r).w.status = 200) ∧
    (((serve controller r).w.status = 200 ∧
        (serve controller r).w.header
          = [("Access-Control-Allow-Origin", "*"), ("Content-Type", "application/json")]) ∨
      (((serve controller r).w.status = 400 ∨ (serve controller r).w.status = 204) ∧
        (serve controller r).w.header = [("Access-Control-Allow-Origin", "*")])) ∧
    (serve controller r).w.sent = (serve controller r).w.header := by
  rcases serve_cases controller r with ⟨-, h⟩ | h | h | ⟨payload, -, h⟩ <;>
    rw [h] <;> simp [corsOnly, jsonBody, List.lookup]

/-- C8, as stated, fails: for the POST request `reqPost`, whose `id` is "E1", the handler
calls the retrieval service and answers 200 with the payload the service returned. -/
theorem Handler_serves_non_GET :
    reqPost.Method = "POST" ∧ reqPost.Method ≠ "GET" ∧
    (serve sampleController reqPost).calls = [("E1", false)] ∧
    (serve sampleController reqPost).w.status = 200 ∧
    (serve sampleController reqPost).w.body = "\x7b\"id\":\"E1\",\"mag\":3.2\x7d" ∧
    ¬ ((serve sampleController reqPost).calls = [] ∧
        (serve sampleController reqPost).w.status ≠ 200) := by
  decide

/-- C8, amended: the handler makes no check of the HTTP method. For a request of any
method (POST, PUT, DELETE, ...) with a non-empty `id` it calls the retrieval service once,
with the arguments it uses for a GET request, and makes the same calls on the response
writer as for the GET request with that query; when the service returns a payload and no
error it answers with status 200 and the JSON content type and writes the payload, which
is the body of the response for every method but HEAD (to a HEAD request a server sends
the status and the headers only). -/
theorem Handler_ignores_method {σ : Type} (controller : Service σ) (m : String)
    (query : Values) (s : σ) (hid : query.Get "id" ≠ "") :
    (Handler controller ResponseWriter.fresh { Method := m, Query := query } s).service
      = (controller (query.Get "id") (decide (query.Get "debug" = "dummy")) s).2 ∧
    (Handler controller ResponseWriter.fresh { Method := m, Query := query } s).w.log
      = (Handler controller ResponseWriter.fresh { Method := "GET", Query := query } s).w.log ∧
    (∀ payload,
      (controller (query.Get "id") (decide (query.Get "debug" = "dummy")) s).1
        = (some payload, none) →
      (Handler controller ResponseWriter.fresh { Method := m, Query := query } s).w.status
        = 200 ∧
      (Handler controller ResponseWriter.fresh { Method := m, Query := query } s).w.sent.lookup
        "Content-Type" = some "application/json" ∧
      (Handler controller ResponseWriter.fresh { Method := m, Query := query } s).w.log
        = [Call.HeaderSet "Access-Control-Allow-Origin" "*",
           Call.HeaderSet "Content-Type" "application/json",
           Call.Write payload, Call.WriteHeader 200] ∧
      (m ≠ "HEAD" →
        (Handler controller ResponseWriter.fresh { Method := m, Query := query } s).w.body
          = payload)) := by
  refine ⟨Handler_service_once controller { Method := m, Query := query } s hid, ?_, ?_⟩
  · rfl
  · intro payload hres
    rcases hc : controller (query.Get "id") (decide (query.Get "debug" = "dummy")) s
      with ⟨res, s2⟩
    rw [hc] at hres
    simp only at hres
    subst hres
    rw [Handler_success controller { Method := m, Query := query } s s2 payload hid hc]
    simp [jsonBody, List.lookup]

theorem Handler_ignores_method_witness :
    reqE1.Query.Get "id" ≠ "" ∧
    (Handler (recorded sampleController) ResponseWriter.fresh
        { Method := "DELETE", Query := reqE1.Query } []).service = [("E1", false)] ∧
    (Handler (recorded sampleController) ResponseWriter.fresh
        { Method := "DELETE", Query := reqE1.Query } []).w.log
      = (Handler (recorded sampleController) ResponseWriter.fresh
          { Method := "GET", Query := reqE1.Query } []).w.log :=
  ⟨by decide,
   (Handler_ignores_method (recorded sampleController) "DELETE" reqE1.Query []
      (by decide)).1,
   (Handler_ignores_method (recorded sampleController) "DELETE" reqE1.Query []
      (by decide)).2.1⟩

/-- C9: whatever the request and the retrieval service are, the response writer receives
exactly one `WriteHeader` call (on the 200 path the one that `Write` makes) and at most one
`Write` call, and the response is (400, CORS header, empty body), (204, CORS header, empty
body) or (200, CORS and Content-Type headers, the payload returned without error); the
status is never anything but 400, 204 or 200. -/
theorem Handler_one_response (controller : GetEventDetailsJson) (r : Request) :
    (serve controller r).w.writeHeaderCalls = 1 ∧
    (serve controller r).w.writeCalls ≤ 1 ∧
    ((serve controller r).w.response
        = (400, [("Access-Control-Allow-Origin", "*")], "") ∨
      (serve controller r).w.response
        = (204, [("Access-Control-Allow-Origin", "*")], "") ∨
      ∃ payload,
        controller (r.Query.Get "id") (decide (r.Query.Get "debug" = "dummy"))
          = (some payload, none) ∧
        (serve controller r).w.response
          = (200, [("Access-Control-Allow-Origin", "*"), ("Content-Type", "application/json")],
             payload)) ∧
    ((serve controller r).w.status = 400 ∨ (serve controller r).w.status = 204 ∨
      (serve controller r).w.status = 200) := by
  rcases serve_cases controller r with ⟨-, h⟩ | h | h | ⟨payload, hp, h⟩
  · rw [h]
    simp [corsOnly, ResponseWriter.writeHeaderCalls, ResponseWriter.writeCalls,
      ResponseWriter.response]
  · rw [h]
    simp [corsOnly, ResponseWriter.writeHeaderCalls, ResponseWriter.writeCalls,
      ResponseWriter.response]
  · rw [h]
    simp [corsOnly, ResponseWriter.writeHeaderCalls, ResponseWriter.writeCalls,
      ResponseWriter.response]
  · rw [h]
    refine ⟨?_, ?_, Or.inr (Or.inr ⟨payload, hp, ?_⟩), ?_⟩ <;>
      simp [jsonBody, ResponseWriter.writeHeaderCalls, ResponseWriter.writeCalls,
        ResponseWriter.response]

/-- C10: the handler never ends in a nil-pointer panic, and a pointer that it dereferences
is the non-nil payload that the retrieval service returned together with a nil error; with
a nil payload, or with any error, nothing is dereferenced. -/
theorem Handler_deref_safe (controller : GetEventDetailsJson) (r : Request) :
    (serve controller r).panicked = false ∧
    (∀ p, p ∈ (serve controller r).derefs →
      ∃ payload, p = some payload ∧
        controller (r.Query.Get "id") (decide (r.Query.Get "debug" = "dummy"))
          = (some payload, none)) ∧
    (((controller (r.Query.Get "id") (decide (r.Query.Get "debug" = "dummy"))).1 = none ∨
      (controller (r.Query.Get "id") (decide (r.Query.Get "debug" = "dummy"))).2 ≠ none) →
      (serve controller r).derefs = []) := by
  rcases serve_cases controller r with ⟨-, h⟩ | h | h | ⟨payload, hp, h⟩
  · rw [h]; simp
  · rw [h]; simp
  · rw [h]; simp
  · rw [h]; simp [hp]

theorem Handler_deref_safe_witness :
    (serve sampleController reqE1).derefs = [some "\x7b\"id\":\"E1\",\"mag\":3.2\x7d"] ∧
    (serve sampleController reqE1).panicked = false ∧
    (∀ p, p ∈ (serve sampleController reqE1).derefs →
      ∃ payload, p = some payload ∧
        sampleController (reqE1.Query.Get "id") (decide (reqE1.Query.Get "debug" = "dummy"))
          = (some payload, none)) :=
  ⟨by decide, (Handler_deref_safe sampleController reqE1).1,
   (Handler_deref_safe sampleController reqE1).2.1⟩

end Polyxia
